import Mathlib

/-!
Verification of the `stat_log_db` data-access layer (`stat_log_db/db.py`).

The Python code is shallowly embedded: strings are Lean `String`s over their
character lists, the `re` checks of the source are transcribed as executable
character-list predicates (including the Python `re.match` quirk that `$`
also matches just before a trailing newline), exceptions become an explicit
`DbError` sum, and calls into the SQLAlchemy engine are recorded as explicit
statement traces.  String primitives (`upper`, `strip`) are modelled
character-wise over the ASCII alphabet used by the identifier grammar.
-/

/-- Errors raised by the layer.  Each constructor corresponds to one of the
`ValueError` / `RuntimeError` sites of `db.py`; the payloads record the
offending value exactly as the source interpolates it into the message. -/
inductive DbError where
  /-- `_validate_identifier`: "SQL {identifier_type} cannot be empty" -/
  | emptyIdentifier (identifierType : String)
  /-- `_validate_identifier`: "Invalid SQL {identifier_type}: '{identifier}'. Must start with letter or underscore ..." -/
  | malformedIdentifier (identifierType identifier : String)
  /-- `_validate_identifier`: "SQL {identifier_type} '{identifier}' is a reserved word" -/
  | reservedWord (identifierType identifier : String)
  /-- `_validate_column_type`: "Invalid column type format: '{col_type}'" -/
  | malformedType (colType : String)
  /-- `_validate_column_type`: "Unsupported column type: '{col_type}'. ..." -/
  | unsupportedType (colType : String)
  /-- `create_table` / `drop_table`: "'table_name' argument cannot be an empty string" -/
  | emptyTableName
  /-- `create_table`: "Table '{validated_table_name}' already exists" -/
  | tableAlreadyExists (tableName : String)
  /-- `drop_table`: "Table '{validated_table_name}' does not exist." -/
  | tableNotFound (tableName : String)
  /-- `BaseConnection.connection`: RuntimeError "Connection is not open." -/
  | notOpen
  /-- `BaseConnection.open`: RuntimeError "Connection is already open." -/
  | alreadyOpen
  /-- `fetchone` / `fetchall`: RuntimeError "No query has been executed. Call execute() first." -/
  | noResultAvailable
  /-- `execute`: "'query' argument of execute cannot be an empty string!" -/
  | emptyQuery
deriving DecidableEq

instance {ε α : Type} [DecidableEq ε] [DecidableEq α] : DecidableEq (Except ε α) := fun x y =>
  match x, y with
  | .ok a, .ok b => if h : a = b then .isTrue (by rw [h]) else .isFalse (by simp [h])
  | .error a, .error b => if h : a = b then .isTrue (by rw [h]) else .isFalse (by simp [h])
  | .ok _, .error _ => .isFalse (by simp)
  | .error _, .ok _ => .isFalse (by simp)

/-- `[a-zA-Z_]`: the leading character class of the identifier regex
`^[a-zA-Z_][a-zA-Z0-9_]*$` in `_validate_identifier`. -/
def isIdentStartChar (c : Char) : Bool := c.isAlpha || c == '_'

/-- `[a-zA-Z0-9_]`: the trailing character class of the identifier regex. -/
def isIdentChar (c : Char) : Bool := c.isAlphanum || c == '_'

/-- Full match of `^[a-zA-Z_][a-zA-Z0-9_]*$` against a character list
(the mathematical reading of the regex, without the `$` newline quirk). -/
def matchCoreL : List Char → Bool
  | [] => false
  | c :: cs => isIdentStartChar c && cs.all isIdentChar

/-- `re.match(r'^[a-zA-Z_][a-zA-Z0-9_]*$', s)` as Python evaluates it:
`$` also matches just before a single trailing newline. -/
def pyIdentMatch (s : String) : Bool :=
  matchCoreL s.data || (s.data.getLast? == some '\n' && matchCoreL s.data.dropLast)

/-- The SQL reserved-word set of `_validate_identifier`, transcribed verbatim. -/
def sqlReservedWords : List String := [
  "ABORT", "ACTION", "ADD", "AFTER", "ALL", "ALTER", "ANALYZE", "AND", "AS", "ASC",
  "ATTACH", "AUTOINCREMENT", "BEFORE", "BEGIN", "BETWEEN", "BY", "CASCADE", "CASE",
  "CAST", "CHECK", "COLLATE", "COLUMN", "COMMIT", "CONFLICT", "CONSTRAINT", "CREATE",
  "CROSS", "CURRENT_DATE", "CURRENT_TIME", "CURRENT_TIMESTAMP", "DATABASE", "DEFAULT",
  "DEFERRABLE", "DEFERRED", "DELETE", "DESC", "DETACH", "DISTINCT", "DROP", "EACH",
  "ELSE", "END", "ESCAPE", "EXCEPT", "EXCLUSIVE", "EXISTS", "EXPLAIN", "FAIL", "FOR",
  "FOREIGN", "FROM", "FULL", "GLOB", "GROUP", "HAVING", "IF", "IGNORE", "IMMEDIATE",
  "IN", "INDEX", "INDEXED", "INITIALLY", "INNER", "INSERT", "INSTEAD", "INTERSECT",
  "INTO", "IS", "ISNULL", "JOIN", "KEY", "LEFT", "LIKE", "LIMIT", "MATCH", "NATURAL",
  "NO", "NOT", "NOTNULL", "NULL", "OF", "OFFSET", "ON", "OR", "ORDER", "OUTER", "PLAN",
  "PRAGMA", "PRIMARY", "QUERY", "RAISE", "RECURSIVE", "REFERENCES", "REGEXP", "REINDEX",
  "RELEASE", "RENAME", "REPLACE", "RESTRICT", "RIGHT", "ROLLBACK", "ROW", "SAVEPOINT",
  "SELECT", "SET", "TABLE", "TEMP", "TEMPORARY", "THEN", "TO", "TRANSACTION", "TRIGGER",
  "UNION", "UNIQUE", "UPDATE", "USING", "VACUUM", "VALUES", "VIEW", "VIRTUAL", "WHEN",
  "WHERE", "WITH", "WITHOUT"]

/-- Python `s.upper()`, character-wise ASCII uppercasing. -/
def upperStr (s : String) : String := ⟨s.data.map Char.toUpper⟩

/-- `BaseConnection._validate_identifier`: empty check, format regex,
reserved-word check; returns the identifier unchanged on success. -/
def validateIdentifier (identifier identifierType : String) : Except DbError String :=
  if identifier = "" then .error (.emptyIdentifier identifierType)
  else if ¬ pyIdentMatch identifier then .error (.malformedIdentifier identifierType identifier)
  else if upperStr identifier ∈ sqlReservedWords then .error (.reservedWord identifierType identifier)
  else .ok identifier

/-- Python `s.strip()` on the character list: whitespace removed from both ends. -/
def stripL (l : List Char) : List Char :=
  ((l.dropWhile Char.isWhitespace).reverse.dropWhile Char.isWhitespace).reverse

/-- Python `s.strip()`. -/
def stripStr (s : String) : String := ⟨stripL s.data⟩

/-- The allow-list of SQLite base types in `_validate_column_type`, verbatim. -/
def allowedTypes : List String := [
  "TEXT", "INTEGER", "REAL", "BLOB", "NUMERIC",
  "VARCHAR", "CHAR", "NVARCHAR", "NCHAR",
  "CLOB", "DATE", "DATETIME", "TIMESTAMP",
  "BOOLEAN", "DECIMAL", "DOUBLE", "FLOAT",
  "INT", "BIGINT", "SMALLINT", "TINYINT"]

/-- `[0-9,\s]`: the character class allowed inside a type qualifier. -/
def isQualifierChar (c : Char) : Bool := c.isDigit || c == ',' || c.isWhitespace

/-- Full match of `^[A-Z]+(\([0-9,\s]+\))?$` against a character list:
a non-empty run of uppercase letters, optionally followed by a parenthesized
non-empty run of digits/commas/whitespace, and nothing else. -/
def typeCoreL (l : List Char) : Bool :=
  let run := l.takeWhile Char.isUpper
  let rest := l.drop run.length
  !run.isEmpty &&
    (rest.isEmpty ||
      (match rest with
       | '(' :: inner => inner.getLast? == some ')' && !inner.dropLast.isEmpty
           && inner.dropLast.all isQualifierChar
       | _ => false))

/-- `re.match(r'^[A-Z]+(\([0-9,\s]+\))?$', s)` as Python evaluates it
(`$` also matches just before a single trailing newline). -/
def pyTypeMatch (s : String) : Bool :=
  typeCoreL s.data || (s.data.getLast? == some '\n' && typeCoreL s.data.dropLast)

/-- `BaseConnection._validate_column_type`: normalizes with `.upper().strip()`,
extracts the base type with `re.match(r'^([A-Z]+)', ...)`, checks the
allow-list, then the full-format regex; returns the normalized string. -/
def validateColumnType (colType : String) : Except DbError String :=
  let normalizedType := stripStr (upperStr colType)
  let baseType := normalizedType.data.takeWhile Char.isUpper
  if baseType = [] then .error (.malformedType colType)
  else if ¬ String.mk baseType ∈ allowedTypes then .error (.unsupportedType colType)
  else if ¬ pyTypeMatch normalizedType then .error (.malformedType colType)
  else .ok normalizedType

/-- `BaseConnection._build_column_definition`: validate name and type, then
wrap the name in double quotes and join with a space. -/
def buildColumnDefinition (colName colType : String) : Except DbError String := do
  let validatedColName ← validateIdentifier colName "column name"
  let validatedColType ← validateColumnType colType
  .ok ("\"" ++ validatedColName ++ "\" " ++ validatedColType)

/-- The loop in `create_table` that builds one definition per `(name, type)`
pair, failing on the first invalid column. -/
def buildColumnDefinitions : List (String × String) → Except DbError (List String)
  | [] => .ok []
  | (colName, colType) :: rest => do
    let columnDef ← buildColumnDefinition colName colType
    let columnDefs ← buildColumnDefinitions rest
    .ok (columnDef :: columnDefs)

/-- Python `sep.join(parts)`. -/
def joinSep (sep : String) : List String → String
  | [] => ""
  | [part] => part
  | part :: parts => part ++ sep ++ joinSep sep parts

/-- The `CREATE TABLE` statement text built by `create_table`, with the exact
whitespace of its triple-quoted f-string. -/
def createTableQuery (validatedTableName : String) (columnDefinitions : List String)
    (tempTable : Bool) : String :=
  let escapedTableName := "\"" ++ validatedTableName ++ "\""
  let columnsClause := joinSep ",\n                " columnDefinitions
  let tempKeyword := if tempTable then " TEMPORARY" else ""
  "CREATE" ++ tempKeyword ++ " TABLE IF NOT EXISTS " ++ escapedTableName ++
    " (\n                id INTEGER PRIMARY KEY AUTOINCREMENT,\n                " ++
    columnsClause ++ "\n            )"

/-- The `DROP TABLE` statement text built by `drop_table`. -/
def dropTableQuery (validatedTableName : String) : String :=
  let escapedTableName := "\"" ++ validatedTableName ++ "\""
  "DROP TABLE IF EXISTS " ++ escapedTableName

/-- A statement sent to the SQLAlchemy engine by the DDL methods. -/
inductive Stmt where
  /-- The parameterized catalog lookup
  `SELECT name FROM sqlite_master WHERE type='table' AND name=:table_name`. -/
  | catalogHasTable (tableName : String)
  /-- A statement executed through `text(query)`. -/
  | sql (query : String)
deriving DecidableEq

/-- `BaseConnection.create_table`.  The engine is abstracted by the list of
table names its catalog currently holds; the returned trace records every
statement sent to the engine, in order.  Python argument-type checks that
Lean's types make unrepresentable are omitted. -/
def createTable (existingTables : List String) (tableName : String)
    (columns : List (String × String)) (tempTable raiseIfExists : Bool) :
    Except DbError String × List Stmt :=
  if tableName = "" then (.error .emptyTableName, [])
  else
    match validateIdentifier tableName "table name" with
    | .error e => (.error e, [])
    | .ok validatedTableName =>
      let checkTrace := if raiseIfExists then [Stmt.catalogHasTable validatedTableName] else []
      if raiseIfExists ∧ validatedTableName ∈ existingTables then
        (.error (.tableAlreadyExists validatedTableName), checkTrace)
      else
        match buildColumnDefinitions columns with
        | .error e => (.error e, checkTrace)
        | .ok columnDefinitions =>
          let createQuery := createTableQuery validatedTableName columnDefinitions tempTable
          (.ok createQuery, checkTrace ++ [Stmt.sql createQuery])

/-- `BaseConnection.drop_table`, with the engine catalog abstracted as in
`createTable`. -/
def dropTable (existingTables : List String) (tableName : String)
    (raiseIfNotExists : Bool) : Except DbError String × List Stmt :=
  if tableName = "" then (.error .emptyTableName, [])
  else
    match validateIdentifier tableName "table name" with
    | .error e => (.error e, [])
    | .ok validatedTableName =>
      let checkTrace := if raiseIfNotExists then [Stmt.catalogHasTable validatedTableName] else []
      if raiseIfNotExists ∧ ¬ validatedTableName ∈ existingTables then
        (.error (.tableNotFound validatedTableName), checkTrace)
      else
        let query := dropTableQuery validatedTableName
        (.ok query, checkTrace ++ [Stmt.sql query])

/-- An action performed on the engine connection handle. -/
inductive EngineAction where
  /-- `self.connection.commit()` -/
  | commit
  /-- `self.connection.execute(text(query), ...)` -/
  | runQuery (query : String)
deriving DecidableEq

/-- The cursor state of a SQLAlchemy `Result`: the rows the engine returned
for the last executed query, and how many have been consumed.  Row contents
are opaque to the wrapper, so rows are modelled as bare numbers. -/
structure ResultSt where
  rows : List Nat
  pos : Nat
deriving DecidableEq

/-- `BaseConnection` state: `handle` is `self._connection` (`None` when
closed), `lastResult` is `self._last_result` (`none` while the attribute does
not exist, i.e. before the first `execute`; it is never reset afterwards). -/
structure Conn where
  handle : Option Nat
  lastResult : Option ResultSt
deriving DecidableEq

/-- `Database` configuration, as set up by `Database.__init__`. -/
structure Database where
  dbName : String
  inMemory : Bool
  fkeyConstraint : Bool
deriving DecidableEq

/-- `Database.create_connection`: returns a fresh `BaseConnection(self)` with
no engine handle and no stored result.  The source keeps no record of the
connections it hands out. -/
def Database.createConnection (_db : Database) : Conn := ⟨none, none⟩

/-- `BaseConnection.open`: fails if a handle already exists, otherwise takes
one from the engine (`self._db.engine.connect()`), which always succeeds —
for an in-memory database the `StaticPool` engine hands the single shared
handle to every caller. -/
def openConn (c : Conn) : Except DbError Conn :=
  if c.handle.isSome then .error .alreadyOpen
  else .ok { c with handle := some 0 }

/-- `BaseConnection.close`: commit if a handle exists, then release it.
The source raises no error when the connection is already closed. -/
def closeConn (c : Conn) : Conn × List EngineAction :=
  match c.handle with
  | some _ => ({ c with handle := none }, [.commit])
  | none => (c, [])

/-- `BaseConnection.execute`: rejects the empty query, requires an open
handle (via the `connection` property), runs the query and stores the result.
`engineRows` stands for the rows the engine returns for this query. -/
def executeConn (c : Conn) (query : String) (engineRows : List Nat) :
    Except DbError (Conn × List EngineAction) :=
  if query = "" then .error .emptyQuery
  else
    match c.handle with
    | none => .error .notOpen
    | some _ => .ok ({ c with lastResult := some ⟨engineRows, 0⟩ }, [.runQuery query])

/-- `BaseConnection.commit`: requires an open handle. -/
def commitConn (c : Conn) : Except DbError (Conn × List EngineAction) :=
  match c.handle with
  | none => .error .notOpen
  | some _ => .ok (c, [.commit])

/-- `BaseConnection.fetchone`: fails only when no result was ever stored;
otherwise returns the next row (or `none` when exhausted) and advances the
cursor.  The open/closed state is not consulted. -/
def fetchoneConn (c : Conn) : Except DbError (Option Nat × Conn) :=
  match c.lastResult with
  | none => .error .noResultAvailable
  | some r => .ok (r.rows.get? r.pos, { c with lastResult := some ⟨r.rows, r.pos + 1⟩ })

/-- `BaseConnection.fetchall`: fails only when no result was ever stored;
otherwise returns all remaining rows and exhausts the cursor. -/
def fetchallConn (c : Conn) : Except DbError (List Nat × Conn) :=
  match c.lastResult with
  | none => .error .noResultAvailable
  | some r => .ok (r.rows.drop r.pos, { c with lastResult := some ⟨r.rows, r.rows.length⟩ })

/-- The state surrounding one `Database`: its configuration, whether
`close_db` has disposed the engine, and — for specification purposes only —
the `Connection` values callers have created from it.  The Python `Database`
itself stores no such collection. -/
structure DbWorld where
  db : Database
  engineDisposed : Bool
  conns : List Conn
deriving DecidableEq

/-- `Database.close_db`: `self._engine.dispose()` and nothing else — the
connection objects are not visited. -/
def closeDb (w : DbWorld) : DbWorld := { w with engineDisposed := true }

/-- One caller-visible operation on a single connection, for trace-based
statements about a connection's lifetime. -/
inductive ConnOp where
  | openOp
  | closeOp
  | execOp (query : String) (engineRows : List Nat)
  | fetchoneOp
  | fetchallOp
  | commitOp
deriving DecidableEq

/-- Apply one operation to a connection, keeping only the state. -/
def applyOp (c : Conn) : ConnOp → Except DbError Conn
  | .openOp => openConn c
  | .closeOp => .ok (closeConn c).1
  | .execOp query engineRows => (executeConn c query engineRows).map (·.1)
  | .fetchoneOp => (fetchoneConn c).map (·.2)
  | .fetchallOp => (fetchallConn c).map (·.2)
  | .commitOp => (commitConn c).map (·.1)

/-- Run a sequence of operations, stopping at the first error. -/
def runOps : Conn → List ConnOp → Except DbError Conn
  | c, [] => .ok c
  | c, op :: ops =>
    match applyOp c op with
    | .error e => .error e
    | .ok c' => runOps c' ops

/-- Whether an operation is an `open`. -/
def isOpenOp : ConnOp → Bool
  | .openOp => true
  | _ => false

/-- Whether an operation is an `execute`. -/
def isExecOp : ConnOp → Bool
  | .execOp _ _ => true
  | _ => false

/-- The rows carried by an `execute` operation. -/
def execRows? : ConnOp → Option (List Nat)
  | .execOp _ engineRows => some engineRows
  | _ => none

/-- The operations that follow the last `open` of the trace (the whole trace
when it contains no `open`). -/
def opsSinceLastOpen (ops : List ConnOp) : List ConnOp :=
  (ops.reverse.takeWhile (fun op => !isOpenOp op)).reverse

/-- The claim's condition: no `execute` has run since the last `open`. -/
def noExecSinceLastOpen (ops : List ConnOp) : Bool :=
  (opsSinceLastOpen ops).all (fun op => !isExecOp op)

/-- The rows of the most recent `execute` of the trace, if any. -/
def lastExecRows (ops : List ConnOp) : Option (List Nat) :=
  ops.reverse.findSome? execRows?

/-- The characters the spec's injection property singles out:
`; ' " - (space) ( ) [ ] { } @ # $`. -/
def forbiddenChars : List Char :=
  [';', '\x27', '\x22', '-', ' ', '(', ')', '[', ']', '\x7b', '\x7d', '@', '#', '$']

/-- Shape of every SQL reserved word: non-empty, an uppercase letter first,
uppercase letters or underscores throughout. -/
def reservedShape (w : String) : Bool :=
  match w.data with
  | [] => false
  | c :: cs => c.isUpper && (cs.all fun d => d.isUpper || d == '_')

/-- Whitespace-only string. -/
def isWsOnly (s : String) : Bool := s.data.all Char.isWhitespace

/-- Number of commas in a string. -/
def commaCount (s : String) : Nat := s.data.countP (fun c => c == ',')

/-- Modelled from the spec: the DDL statement shape
`CREATE [TEMPORARY] TABLE IF NOT EXISTS "<name>" (id INTEGER PRIMARY KEY
AUTOINCREMENT, "<col>" <TYPE>, ...)` of the claim, with the inter-token
whitespace left as parameters (`wOpen` after the opening parenthesis,
`wSep` after each comma, `wClose` before the closing parenthesis); the
claim's own rendering uses `wOpen = ""`, `wSep = " "`, `wClose = ""`. -/
def claimCreateShape (name : String) (colDefs : List String) (tempTable : Bool)
    (wOpen wSep wClose : String) : String :=
  "CREATE" ++ (if tempTable then " TEMPORARY" else "") ++ " TABLE IF NOT EXISTS \"" ++
    name ++ "\" (" ++ wOpen ++
    joinSep ("," ++ wSep) ("id INTEGER PRIMARY KEY AUTOINCREMENT" :: colDefs) ++
    wClose ++ ")"

/-! ### Character-level facts about the identifier grammar -/

lemma char_isLower_eq (c : Char) :
    c.isLower = (decide (97 ≤ c.toNat) && decide (c.toNat ≤ 122)) := by
  simp [Char.isLower, Char.toNat, UInt32.le_def, BitVec.le_def, UInt32.toNat]

lemma toUpper_eq_of_not_lower (c : Char) (h : c.isLower = false) : Char.toUpper c = c := by
  rw [char_isLower_eq] at h
  unfold Char.toUpper
  rw [if_neg]
  intro hc
  simp at h
  omega

lemma identStart_of_upper (c : Char) (h : (Char.toUpper c).isUpper = true) :
    isIdentStartChar c = true := by
  by_cases hl : c.isLower
  · simp [isIdentStartChar, Char.isAlpha, hl]
  · rw [toUpper_eq_of_not_lower c (by simpa using hl)] at h
    simp [isIdentStartChar, Char.isAlpha, h]

lemma identChar_of_upper (c : Char)
    (h : (Char.toUpper c).isUpper = true ∨ Char.toUpper c = '_') :
    isIdentChar c = true := by
  by_cases hl : c.isLower
  · simp [isIdentChar, Char.isAlphanum, Char.isAlpha, hl]
  · rw [toUpper_eq_of_not_lower c (by simpa using hl)] at h
    rcases h with h | h
    · simp [isIdentChar, Char.isAlphanum, Char.isAlpha, h]
    · simp [isIdentChar, h]

lemma sqlReservedWords_shape : sqlReservedWords.all reservedShape = true := by decide

lemma upper_mem_reserved_matchCore (s : String) (h : upperStr s ∈ sqlReservedWords) :
    matchCoreL s.data = true := by
  have hshape := List.all_eq_true.mp sqlReservedWords_shape _ h
  unfold reservedShape at hshape
  rw [show (upperStr s).data = s.data.map Char.toUpper from rfl] at hshape
  cases hd : s.data with
  | nil => rw [hd] at hshape; simp at hshape
  | cons a as =>
    rw [hd] at hshape
    simp only [List.map_cons] at hshape
    rw [Bool.and_eq_true] at hshape
    obtain ⟨ha, has⟩ := hshape
    rw [show matchCoreL (a :: as) = (isIdentStartChar a && as.all isIdentChar) from rfl]
    rw [identStart_of_upper a ha, Bool.true_and, List.all_eq_true]
    intro d hd2
    apply identChar_of_upper
    have hdu := List.all_eq_true.mp has (Char.toUpper d) (List.mem_map_of_mem _ hd2)
    rw [Bool.or_eq_true] at hdu
    rcases hdu with h' | h'
    · exact Or.inl h'
    · exact Or.inr (by simpa using h')

lemma ne_empty_of_matchCore (s : String) (h : matchCoreL s.data = true) : s ≠ "" := by
  intro he
  subst he
  exact absurd h (by decide)

lemma validateIdentifier_reserved (s identifierType : String)
    (h : upperStr s ∈ sqlReservedWords) :
    validateIdentifier s identifierType = .error (.reservedWord identifierType s) := by
  have hmc := upper_mem_reserved_matchCore s h
  unfold validateIdentifier
  rw [if_neg (ne_empty_of_matchCore s hmc)]
  rw [if_neg (by simp [pyIdentMatch, hmc])]
  rw [if_pos h]

lemma matchCoreL_eq_false (l : List Char) (c : Char) (hc : c ∈ l)
    (h1 : isIdentStartChar c = false) (h2 : isIdentChar c = false) :
    matchCoreL l = false := by
  cases l with
  | nil => rfl
  | cons a as =>
    rw [show matchCoreL (a :: as) = (isIdentStartChar a && as.all isIdentChar) from rfl]
    rcases List.mem_cons.mp hc with h | h
    · subst h
      rw [h1, Bool.false_and]
    · cases hall : as.all isIdentChar with
      | true => exact absurd (List.all_eq_true.mp hall c h) (by simp [h2])
      | false => rw [Bool.and_false]

lemma pyIdentMatch_eq_false (s : String) (c : Char) (hc : c ∈ s.data)
    (h1 : isIdentStartChar c = false) (h2 : isIdentChar c = false) (h3 : c ≠ '\n') :
    pyIdentMatch s = false := by
  unfold pyIdentMatch
  rw [matchCoreL_eq_false s.data c hc h1 h2, Bool.false_or]
  by_cases hl : s.data.getLast? = some '\n'
  · have hne : s.data ≠ [] := by
      intro h
      rw [h] at hl
      simp at hl
    have hsplit := List.dropLast_append_getLast hne
    have hglast : s.data.getLast hne = '\n' := by
      have hq := List.getLast?_eq_getLast s.data hne
      rw [hl] at hq
      exact (Option.some.inj hq).symm
    have hcd : c ∈ s.data.dropLast := by
      rw [← hsplit] at hc
      rcases List.mem_append.mp hc with h | h
      · exact h
      · exact absurd (by rwa [hglast] at h : c ∈ ['\n']) (by simp [h3])
    rw [matchCoreL_eq_false _ c hcd h1 h2, Bool.and_false]
  · rw [show (s.data.getLast? == some '\n') = false by simpa using hl, Bool.false_and]

/-! ### Claims C3, C4, C5: the identifier validator -/

/-- Claim C3: for every string whose case-normalized form is a SQL reserved
word (hence every case variant of a reserved word) supplied as table name,
`create_table` with `raise_if_exists = true` fails with the reserved-word
error, and its engine trace is empty — no statement, not even the catalog
existence query, reaches the engine. -/
theorem c3_reserved_table_name_rejected_before_engine
    (existingTables : List String) (tableName : String)
    (columns : List (String × String)) (tempTable : Bool)
    (h : upperStr tableName ∈ sqlReservedWords) :
    createTable existingTables tableName columns tempTable true =
      (.error (.reservedWord "table name" tableName), []) := by
  have hmc := upper_mem_reserved_matchCore tableName h
  unfold createTable
  rw [if_neg (ne_empty_of_matchCore tableName hmc)]
  rw [validateIdentifier_reserved tableName "table name" h]

theorem c3_witness :
    upperStr "Select" ∈ sqlReservedWords ∧
      createTable [] "Select" [("notes", "TEXT")] true true =
        (.error (.reservedWord "table name" "Select"), []) :=
  ⟨by decide,
   c3_reserved_table_name_rejected_before_engine [] "Select" [("notes", "TEXT")] true
     (by decide)⟩

/-- Claim C4: every string that fully matches `^[A-Za-z_][A-Za-z0-9_]*$` and
whose upper-cased form is not a SQL reserved word is returned unchanged by
`_validate_identifier`. -/
theorem c4_valid_identifier_returned_unchanged (identifier identifierType : String)
    (hmatch : matchCoreL identifier.data = true)
    (hres : upperStr identifier ∉ sqlReservedWords) :
    validateIdentifier identifier identifierType = .ok identifier := by
  unfold validateIdentifier
  rw [if_neg (ne_empty_of_matchCore identifier hmatch)]
  rw [if_neg (by simp [pyIdentMatch, hmatch])]
  rw [if_neg hres]

theorem c4_witness :
    matchCoreL "my_table1".data = true ∧ upperStr "my_table1" ∉ sqlReservedWords ∧
      validateIdentifier "my_table1" "table name" = .ok "my_table1" :=
  ⟨by decide, by decide,
   c4_valid_identifier_returned_unchanged "my_table1" "table name" (by decide) (by decide)⟩

/-- Claim C5: every string containing one of the characters
`; ' " - (space) ( ) [ ] { } @ # $` is rejected by `_validate_identifier`
with the malformed-identifier error — the result is exactly that error, so
the string is never partially escaped and accepted. -/
theorem c5_forbidden_char_malformed (identifier identifierType : String) (c : Char)
    (hmem : c ∈ identifier.data) (hforb : c ∈ forbiddenChars) :
    validateIdentifier identifier identifierType =
      .error (.malformedIdentifier identifierType identifier) := by
  have hbad : isIdentStartChar c = false ∧ isIdentChar c = false ∧ c ≠ '\n' := by
    fin_cases hforb <;> refine ⟨by decide, by decide, by decide⟩
  obtain ⟨h1, h2, h3⟩ := hbad
  have hne : identifier ≠ "" := by
    intro he
    subst he
    exact List.not_mem_nil c hmem
  unfold validateIdentifier
  rw [if_neg hne]
  rw [if_pos (by simp [pyIdentMatch_eq_false identifier c hmem h1 h2 h3])]

theorem c5_witness :
    ';' ∈ "users;drop".data ∧ ';' ∈ forbiddenChars ∧
      validateIdentifier "users;drop" "table name" =
        .error (.malformedIdentifier "table name" "users;drop") :=
  ⟨by decide, by decide,
   c5_forbidden_char_malformed "users;drop" "table name" ';' (by decide) (by decide)⟩

/-! ### Claim C6: the column-type validator -/

lemma takeWhile_dropLast_nil {p : Char → Bool} (l : List Char) (h : l.takeWhile p = []) :
    l.dropLast.takeWhile p = [] := by
  cases l with
  | nil => rfl
  | cons a as =>
    have hpa : p a = false := by
      by_contra hp
      rw [List.takeWhile_cons, if_pos (by simpa using hp)] at h
      exact absurd h (by simp)
    cases as with
    | nil => rfl
    | cons b bs =>
      rw [show (a :: b :: bs).dropLast = a :: (b :: bs).dropLast from rfl]
      rw [List.takeWhile_cons, if_neg (by simp [hpa])]

lemma pyTypeMatch_false_of_no_run (s : String)
    (h : s.data.takeWhile Char.isUpper = []) : pyTypeMatch s = false := by
  unfold pyTypeMatch typeCoreL
  rw [h, takeWhile_dropLast_nil s.data h]
  simp

/-- Claim C6: `_validate_column_type` upper-cases and trims its input; it
fails with the unsupported-type error exactly when the (non-empty) leading
uppercase-alphabetic run of the normalized string is outside the allow-list;
it fails with the malformed-format error exactly when the normalized string
does not match `^[A-Z]+(\([0-9,\s]+\))?$` — except that an out-of-allow-list
base type takes priority — and otherwise it returns the normalized string
unchanged.  (When the string has no leading alphabetic run at all, base-type
extraction fails and the result is the malformed-format error.) -/
theorem c6_column_type_characterization (colType : String) :
    (validateColumnType colType = .error (.unsupportedType colType) ↔
      ((stripStr (upperStr colType)).data.takeWhile Char.isUpper ≠ [] ∧
        String.mk ((stripStr (upperStr colType)).data.takeWhile Char.isUpper) ∉ allowedTypes)) ∧
    (validateColumnType colType = .error (.malformedType colType) ↔
      (pyTypeMatch (stripStr (upperStr colType)) = false ∧
        ((stripStr (upperStr colType)).data.takeWhile Char.isUpper = [] ∨
          String.mk ((stripStr (upperStr colType)).data.takeWhile Char.isUpper) ∈ allowedTypes))) ∧
    (validateColumnType colType = .ok (stripStr (upperStr colType)) ↔
      (pyTypeMatch (stripStr (upperStr colType)) = true ∧
        String.mk ((stripStr (upperStr colType)).data.takeWhile Char.isUpper) ∈ allowedTypes)) := by
  by_cases h1 : (stripStr (upperStr colType)).data.takeWhile Char.isUpper = []
  · have hpm := pyTypeMatch_false_of_no_run _ h1
    refine ⟨?_, ?_, ?_⟩ <;> simp [validateColumnType, h1, hpm]
  · by_cases h2 : String.mk ((stripStr (upperStr colType)).data.takeWhile Char.isUpper) ∈ allowedTypes
    · by_cases h3 : pyTypeMatch (stripStr (upperStr colType)) = true
      · refine ⟨?_, ?_, ?_⟩ <;> simp [validateColumnType, h1, h2, h3]
      · refine ⟨?_, ?_, ?_⟩ <;>
          simp [validateColumnType, h1, h2, Bool.eq_false_iff.mpr h3,
            (by simpa using h3 : pyTypeMatch (stripStr (upperStr colType)) = false)]
    · refine ⟨?_, ?_, ?_⟩ <;> simp [validateColumnType, h1, h2]

/-! ### Claim C10: existence check runs between name validation and column validation -/

lemma validateIdentifier_ok_ne_empty (s k v : String)
    (h : validateIdentifier s k = .ok v) : s ≠ "" := by
  intro he
  subst he
  simp [validateIdentifier] at h

/-- Claim C10: in `create_table` with `raise_if_exists = true`, the catalog
existence query runs after only the table name has been validated and before
any column is validated: when the table already exists the call fails with
the already-exists error no matter how malformed the column list is (first
conjunct, `cols1` arbitrary), and when the table does not exist a bad column
list is rejected only after the catalog query has already reached the engine
(second conjunct, trace contains the catalog lookup). -/
theorem c10_catalog_check_precedes_column_validation
    (existing1 existing2 : List String) (name1 name2 : String)
    (cols1 cols2 : List (String × String)) (tempTable : Bool) (e : DbError)
    (hv1 : validateIdentifier name1 "table name" = .ok name1)
    (hmem : name1 ∈ existing1)
    (hv2 : validateIdentifier name2 "table name" = .ok name2)
    (hnmem : name2 ∉ existing2)
    (hbad : buildColumnDefinitions cols2 = .error e) :
    createTable existing1 name1 cols1 tempTable true =
      (.error (.tableAlreadyExists name1), [.catalogHasTable name1]) ∧
    createTable existing2 name2 cols2 tempTable true =
      (.error e, [.catalogHasTable name2]) := by
  constructor
  · unfold createTable
    rw [if_neg (validateIdentifier_ok_ne_empty name1 "table name" name1 hv1), hv1]
    simp [hmem]
  · unfold createTable
    rw [if_neg (validateIdentifier_ok_ne_empty name2 "table name" name2 hv2), hv2]
    simp [hnmem, hbad]

theorem c10_witness :
    (validateIdentifier "t" "table name" = .ok "t" ∧ "t" ∈ ["t"] ∧
      ("t" : String) ∉ ([] : List String) ∧
      buildColumnDefinitions [("select", "TEXT")] =
        .error (.reservedWord "column name" "select")) ∧
    createTable ["t"] "t" [("bad name", "NO SUCH TYPE;")] false true =
      (.error (.tableAlreadyExists "t"), [.catalogHasTable "t"]) ∧
    createTable [] "t" [("select", "TEXT")] false true =
      (.error (.reservedWord "column name" "select"), [.catalogHasTable "t"]) :=
  ⟨⟨by decide, by decide, by decide, by decide⟩,
   c10_catalog_check_precedes_column_validation ["t"] [] "t" "t"
     [("bad name", "NO SUCH TYPE;")] [("select", "TEXT")] false
     (.reservedWord "column name" "select")
     (by decide) (by decide) (by decide) (by decide) (by decide)⟩

/-! ### Claim C1: no in-memory single-connection limit exists -/

/-- Claim C1 counterexample: on an in-memory `Database`, open one
`Connection` (its state is then `⟨some 0, none⟩`, visibly open), then create
a second `Connection` from the same `Database` and open it too — the second
`open` succeeds instead of failing with a registration error.  The source
keeps no registry, so the result of `create_connection` followed by `open`
is the same whether or not another connection is already open. -/
theorem c1_counterexample :
    openConn (Database.mk "d" true true).createConnection = .ok ⟨some 0, none⟩ ∧
    (⟨some 0, none⟩ : Conn).handle.isSome = true ∧
    (openConn (Database.mk "d" true true).createConnection).isOk = true := by
  decide

/-- Claim C1 amended: `Database` (in-memory included) keeps no registry and
imposes no limit on simultaneously open connections: `create_connection`
always hands out a fresh closed connection whose `open` succeeds, and `open`
fails (with the already-open error) only when invoked on a connection that
itself is already open. -/
theorem c1_no_connection_limit (db : Database) (c : Conn) :
    openConn db.createConnection = .ok ⟨some 0, none⟩ ∧
    ((openConn c = .error .alreadyOpen) ↔ c.handle.isSome = true) ∧
    ((openConn c).isOk = true ↔ c.handle = none) := by
  refine ⟨rfl, ?_, ?_⟩
  · cases hc : c.handle <;> simp [openConn, hc]
  · cases hc : c.handle <;> simp [openConn, hc, Except.isOk, Except.toBool]

/-! ### Claim C2: close_db does not close or unregister connections -/

/-- Claim C2 counterexample: `close_db` on a database with one open
connection disposes the engine but leaves the connection untouched: the
connection still holds its handle, and `commit`/`execute` still pass the
wrapper's state checks instead of failing with a connection-state error.
There is no registry that could end up with size 0. -/
theorem c2_counterexample :
    closeDb ⟨⟨"d", true, true⟩, false, [⟨some 0, none⟩]⟩ =
      ⟨⟨"d", true, true⟩, true, [⟨some 0, none⟩]⟩ ∧
    (⟨some 0, none⟩ : Conn).handle.isSome = true ∧
    commitConn ⟨some 0, none⟩ = .ok (⟨some 0, none⟩, [.commit]) ∧
    (executeConn ⟨some 0, none⟩ "SELECT 1" []).isOk = true := by
  decide

/-- Claim C2 amended: `close_db` only disposes the engine
(`self._engine.dispose()`): it closes nothing, maintains no registry,
performs no completeness check, and every connection that was open before
the call is still open afterwards, with `commit` still succeeding at the
wrapper level. -/
theorem c2_close_db_disposes_engine_only (w : DbWorld) (c : Conn) :
    ((closeDb w).db = w.db ∧ (closeDb w).conns = w.conns ∧
      (closeDb w).engineDisposed = true) ∧
    (c ∈ w.conns → c.handle.isSome = true →
      (c ∈ (closeDb w).conns ∧ (commitConn c).isOk = true)) := by
  refine ⟨⟨rfl, rfl, rfl⟩, fun hm hs => ⟨hm, ?_⟩⟩
  cases hc : c.handle
  · rw [hc] at hs
    simp at hs
  · simp [commitConn, hc, Except.isOk, Except.toBool]

theorem c2_witness :
    ((⟨some 0, none⟩ : Conn) ∈ [(⟨some 0, none⟩ : Conn)] ∧
      (⟨some 0, none⟩ : Conn).handle.isSome = true) ∧
    ((⟨some 0, none⟩ : Conn) ∈
        (closeDb ⟨⟨"d", true, true⟩, false, [⟨some 0, none⟩]⟩).conns ∧
      (commitConn ⟨some 0, none⟩).isOk = true) :=
  ⟨⟨by decide, by decide⟩,
   (c2_close_db_disposes_engine_only ⟨⟨"d", true, true⟩, false, [⟨some 0, none⟩]⟩
     ⟨some 0, none⟩).2 (by decide) (by decide)⟩

/-! ### Claim C9: close semantics -/

/-- Claim C9 counterexample: closing an open connection commits and releases
the handle, but a second `close` on the now-closed connection returns
normally as a silent no-op (no error, no engine action) — double-close is
not an error in the source.  Moreover a closed connection that still stores
a result serves `fetchone` successfully, so not every operation on a closed
connection fails with the not-open error. -/
theorem c9_counterexample :
    closeConn ⟨some 0, none⟩ = (⟨none, none⟩, [.commit]) ∧
    closeConn ⟨none, none⟩ = (⟨none, none⟩, []) ∧
    (fetchoneConn ⟨none, some ⟨[7], 0⟩⟩).isOk = true := by
  decide

/-- Claim C9 amended: `close` on an open connection commits, releases the
engine handle and transitions to the closed state, after which `execute` (of
any non-empty query) and `commit` fail with the not-open error; `close` on an
already-closed connection is a silent no-op rather than an error (and fetch
operations consult only the stored last result, not the open state). -/
theorem c9_close_semantics (c : Conn) (query : String) (engineRows : List Nat) :
    closeConn { c with handle := some 0 } = ({ c with handle := none }, [.commit]) ∧
    closeConn { c with handle := none } = ({ c with handle := none }, []) ∧
    (query ≠ "" → executeConn { c with handle := none } query engineRows = .error .notOpen) ∧
    commitConn { c with handle := none } = .error .notOpen := by
  refine ⟨rfl, rfl, fun hq => ?_, rfl⟩
  simp [executeConn, hq]

theorem c9_witness :
    ("SELECT 1" : String) ≠ "" ∧
    executeConn { (⟨none, none⟩ : Conn) with handle := none } "SELECT 1" [] =
      .error .notOpen :=
  ⟨by decide, (c9_close_semantics ⟨none, none⟩ "SELECT 1" []).2.2.1 (by decide)⟩

/-! ### Claim C8: fetch availability across the connection's lifetime -/

lemma lastExecRows_cons (op : ConnOp) (ops : List ConnOp) :
    lastExecRows (op :: ops) = (lastExecRows ops).or (execRows? op) := by
  unfold lastExecRows
  rw [show (op :: ops).reverse = ops.reverse ++ [op] from by simp]
  rw [List.findSome?_append]
  congr 1
  cases op <;> rfl

lemma applyOp_rows (c c' : Conn) (op : ConnOp) (h : applyOp c op = .ok c') :
    c'.lastResult.map ResultSt.rows =
      ((execRows? op).or (c.lastResult.map ResultSt.rows)) := by
  cases op with
  | openOp =>
    simp only [applyOp, openConn] at h
    by_cases hh : c.handle.isSome
    · rw [if_pos hh] at h
      exact absurd h (by simp)
    · rw [if_neg hh, Except.ok.injEq] at h
      subst h
      rfl
  | closeOp =>
    simp only [applyOp, Except.ok.injEq] at h
    subst h
    cases hh : c.handle <;> simp [closeConn, hh, execRows?]
  | execOp query engineRows =>
    simp only [applyOp, executeConn] at h
    by_cases hq : query = ""
    · rw [if_pos hq] at h
      exact absurd h (by simp [Except.map])
    · rw [if_neg hq] at h
      cases hh : c.handle with
      | none => rw [hh] at h; exact absurd h (by simp [Except.map])
      | some n =>
        rw [hh] at h
        simp only [Except.map, Except.ok.injEq] at h
        subst h
        rfl
  | fetchoneOp =>
    simp only [applyOp, fetchoneConn] at h
    cases hl : c.lastResult with
    | none => rw [hl] at h; exact absurd h (by simp [Except.map])
    | some r =>
      rw [hl] at h
      simp only [Except.map, Except.ok.injEq] at h
      subst h
      simp [hl, execRows?]
  | fetchallOp =>
    simp only [applyOp, fetchallConn] at h
    cases hl : c.lastResult with
    | none => rw [hl] at h; exact absurd h (by simp [Except.map])
    | some r =>
      rw [hl] at h
      simp only [Except.map, Except.ok.injEq] at h
      subst h
      simp [hl, execRows?]
  | commitOp =>
    simp only [applyOp, commitConn] at h
    cases hh : c.handle with
    | none => rw [hh] at h; exact absurd h (by simp [Except.map])
    | some n =>
      rw [hh] at h
      simp only [Except.map, Except.ok.injEq] at h
      subst h
      simp [execRows?]

lemma runOps_rows (ops : List ConnOp) : ∀ c c' : Conn, runOps c ops = .ok c' →
    c'.lastResult.map ResultSt.rows =
      ((lastExecRows ops).or (c.lastResult.map ResultSt.rows)) := by
  induction ops with
  | nil =>
    intro c c' h
    rw [show runOps c [] = .ok c from rfl, Except.ok.injEq] at h
    subst h
    rfl
  | cons op ops ih =>
    intro c c' h
    unfold runOps at h
    cases hop : applyOp c op with
    | error e => rw [hop] at h; simp at h
    | ok c1 =>
      rw [hop] at h
      rw [ih c1 c' h, applyOp_rows c c1 op hop, lastExecRows_cons]
      cases lastExecRows ops <;> cases execRows? op <;> rfl

lemma lastExecRows_none_iff (ops : List ConnOp) :
    lastExecRows ops = none ↔ (ops.all fun op => !isExecOp op) = true := by
  unfold lastExecRows
  rw [List.findSome?_eq_none_iff, List.all_eq_true]
  constructor
  · intro hf op hop
    have := hf op (List.mem_reverse.mpr hop)
    cases op <;> simp_all [execRows?, isExecOp]
  · intro hall op hop
    have := hall op (List.mem_reverse.mp hop)
    cases op <;> simp_all [execRows?, isExecOp]

/-- Claim C8 counterexample: over the trace open → execute → close → open,
no `execute` has run since the last `open`, yet `fetchone` on the resulting
state succeeds with the stale first row instead of failing with the
no-result error: `_last_result` survives `close` and re-`open`. -/
theorem c8_counterexample :
    runOps ⟨none, none⟩ [.openOp, .execOp "SELECT 1" [7], .closeOp, .openOp] =
      .ok ⟨some 0, some ⟨[7], 0⟩⟩ ∧
    noExecSinceLastOpen [.openOp, .execOp "SELECT 1" [7], .closeOp, .openOp] = true ∧
    fetchoneConn ⟨some 0, some ⟨[7], 0⟩⟩ = .ok (some 7, ⟨some 0, some ⟨[7], 1⟩⟩) := by
  decide

/-- Claim C8 amended: after any successful operation sequence on a fresh
connection, `fetchone`/`fetchall` fail with the no-result error if and only
if no `execute` has run in the connection's entire lifetime since
construction (the stored result is never cleared, not even by `close` or a
later re-`open`); otherwise they draw from the result of the most recent
`execute` — the stored rows are exactly the rows that `execute` received
from the engine. -/
theorem c8_fetch_fails_iff_never_executed (ops : List ConnOp) (c' : Conn)
    (h : runOps ⟨none, none⟩ ops = .ok c') :
    c'.lastResult.map ResultSt.rows = lastExecRows ops ∧
    ((fetchoneConn c' = .error .noResultAvailable) ↔ lastExecRows ops = none) ∧
    ((fetchallConn c' = .error .noResultAvailable) ↔ lastExecRows ops = none) ∧
    (lastExecRows ops = none ↔ (ops.all fun op => !isExecOp op) = true) := by
  have hinv := runOps_rows ops ⟨none, none⟩ c' h
  rw [show ((⟨none, none⟩ : Conn).lastResult.map ResultSt.rows) = none from rfl,
    Option.or_none] at hinv
  refine ⟨hinv, ?_, ?_, lastExecRows_none_iff ops⟩
  · rw [← hinv]
    cases hl : c'.lastResult <;> simp [fetchoneConn, hl]
  · rw [← hinv]
    cases hl : c'.lastResult <;> simp [fetchallConn, hl]

theorem c8_witness :
    runOps ⟨none, none⟩ [.openOp, .execOp "SELECT 1" [5]] = .ok ⟨some 0, some ⟨[5], 0⟩⟩ ∧
    ((⟨some 0, some ⟨[5], 0⟩⟩ : Conn).lastResult.map ResultSt.rows =
        lastExecRows [.openOp, .execOp "SELECT 1" [5]] ∧
      ((fetchoneConn ⟨some 0, some ⟨[5], 0⟩⟩ = .error .noResultAvailable) ↔
        lastExecRows [.openOp, .execOp "SELECT 1" [5]] = none) ∧
      ((fetchallConn ⟨some 0, some ⟨[5], 0⟩⟩ = .error .noResultAvailable) ↔
        lastExecRows [.openOp, .execOp "SELECT 1" [5]] = none) ∧
      (lastExecRows [.openOp, .execOp "SELECT 1" [5]] = none ↔
        (([.openOp, .execOp "SELECT 1" [5]] : List ConnOp).all fun op => !isExecOp op) = true)) :=
  ⟨by decide,
   c8_fetch_fails_iff_never_executed [.openOp, .execOp "SELECT 1" [5]]
     ⟨some 0, some ⟨[5], 0⟩⟩ (by decide)⟩

/-! ### Claim C7: shape of the emitted DDL statements -/

lemma strData_append (a b : String) : (a ++ b).data = a.data ++ b.data := rfl

lemma createTableQuery_eq_shape (name d : String) (ds : List String) (tempTable : Bool) :
    createTableQuery name (d :: ds) tempTable =
      claimCreateShape name (d :: ds) tempTable
        "\n                " "\n                " "\n            " := by
  simp only [createTableQuery, claimCreateShape]
  rw [show joinSep ("," ++ "\n                ")
        ("id INTEGER PRIMARY KEY AUTOINCREMENT" :: d :: ds) =
      "id INTEGER PRIMARY KEY AUTOINCREMENT" ++ ",\n                " ++
        joinSep ",\n                " (d :: ds) from rfl]
  apply String.ext
  cases tempTable <;>
    · simp only [Bool.false_eq_true, if_false, if_true, reduceIte, strData_append,
        List.append_assoc]
      simp [String.data]

lemma dropTableQuery_eq_shape (name : String) :
    dropTableQuery name = "DROP TABLE IF EXISTS \"" ++ name ++ "\"" := by
  simp only [dropTableQuery]
  apply String.ext
  simp only [strData_append, List.append_assoc]
  simp [String.data]

/-- Claim C7 (amended to non-empty column lists): for every validated table
name and non-empty validated column list, the statement `create_table` sends
to the engine is exactly the claimed shape `CREATE [TEMPORARY] TABLE IF NOT
EXISTS "<name>" (id INTEGER PRIMARY KEY AUTOINCREMENT, "<col>" <TYPE>, ...)`
— surrogate `id` column prepended, every identifier double-quoted — up to
whitespace-only separators, and `drop_table` sends exactly
`DROP TABLE IF EXISTS "<name>"`. -/
theorem c7_ddl_statement_shape (existingTables : List String) (name : String)
    (columns : List (String × String)) (colDefs : List String) (tempTable : Bool)
    (hname : validateIdentifier name "table name" = .ok name)
    (hcols : buildColumnDefinitions columns = .ok colDefs)
    (hne : colDefs ≠ []) :
    createTable existingTables name columns tempTable false =
      (.ok (createTableQuery name colDefs tempTable),
        [.sql (createTableQuery name colDefs tempTable)]) ∧
    (isWsOnly "\n                " = true ∧ isWsOnly "\n            " = true ∧
      createTableQuery name colDefs tempTable =
        claimCreateShape name colDefs tempTable
          "\n                " "\n                " "\n            ") ∧
    dropTable existingTables name false =
      (.ok (dropTableQuery name), [.sql (dropTableQuery name)]) ∧
    dropTableQuery name = "DROP TABLE IF EXISTS \"" ++ name ++ "\"" := by
  refine ⟨?_, ⟨by decide, by decide, ?_⟩, ?_, dropTableQuery_eq_shape name⟩
  · unfold createTable
    rw [if_neg (validateIdentifier_ok_ne_empty name "table name" name hname), hname]
    simp [hcols]
  · cases colDefs with
    | nil => exact absurd rfl hne
    | cons d ds => exact createTableQuery_eq_shape name d ds tempTable
  · unfold dropTable
    rw [if_neg (validateIdentifier_ok_ne_empty name "table name" name hname), hname]
    simp

theorem c7_witness :
    (validateIdentifier "t" "table name" = .ok "t" ∧
      buildColumnDefinitions [("notes", "TEXT")] = .ok ["\"notes\" TEXT"] ∧
      (["\"notes\" TEXT"] : List String) ≠ []) ∧
    createTableQuery "t" ["\"notes\" TEXT"] false =
      claimCreateShape "t" ["\"notes\" TEXT"] false
        "\n                " "\n                " "\n            " :=
  ⟨⟨by decide, by decide, by decide⟩,
   (c7_ddl_statement_shape [] "t" [("notes", "TEXT")] ["\"notes\" TEXT"] false
     (by decide) (by decide) (by decide)).2.1.2.2⟩

lemma commaCount_append (a b : String) :
    commaCount (a ++ b) = commaCount a + commaCount b := by
  simp [commaCount, strData_append, List.countP_append]

lemma commaCount_wsOnly (w : String) (h : isWsOnly w = true) : commaCount w = 0 := by
  unfold commaCount
  rw [List.countP_eq_zero]
  intro a ha
  have haws := List.all_eq_true.mp h a ha
  intro hcomma
  rw [show a = ',' from by simpa using hcomma] at haws
  exact absurd haws (by decide)

/-- Claim C7 counterexample: `create_table`'s precondition admits the empty
column list (the `columns` argument check accepts `[]`), but the statement
built for it carries a dangling comma after the `id` column, so it does not
have the claimed shape for any choice of whitespace-only separators: the
claimed shape for zero columns contains no comma at all, while the built
statement contains one. -/
theorem c7_counterexample :
    buildColumnDefinitions ([] : List (String × String)) = .ok [] ∧
    ¬ ∃ wOpen wSep wClose : String,
        isWsOnly wOpen = true ∧ isWsOnly wSep = true ∧ isWsOnly wClose = true ∧
        createTableQuery "t" [] false = claimCreateShape "t" [] false wOpen wSep wClose := by
  refine ⟨rfl, ?_⟩
  rintro ⟨wOpen, wSep, wClose, h1, h2, h3, heq⟩
  have hc : commaCount (createTableQuery "t" [] false) =
      commaCount (claimCreateShape "t" [] false wOpen wSep wClose) := by rw [heq]
  rw [show commaCount (createTableQuery "t" [] false) = 1 from by decide] at hc
  rw [show claimCreateShape "t" [] false wOpen wSep wClose =
      "CREATE" ++ (if False then " TEMPORARY" else "") ++ " TABLE IF NOT EXISTS \"" ++
        "t" ++ "\" (" ++ wOpen ++ "id INTEGER PRIMARY KEY AUTOINCREMENT" ++
        wClose ++ ")" from rfl] at hc
  simp only [commaCount_append, commaCount_wsOnly wOpen h1,
    commaCount_wsOnly wClose h3] at hc
  rw [show (if False then (" TEMPORARY" : String) else "") = "" from rfl] at hc
  exact absurd hc (by decide)
